import Mathlib

/-!
Shallow embedding of the Sentinel-6 NRT access notebook
(`src/notebooks/sentinel-6/Access_Sentinel6_NRT.ipynb`): a watermark-driven
incremental sync pass.  One run of the notebook is modelled as a pure
function `NRT.run` of a configuration (the papermill parameter cell) and an
environment (pre-run filesystem state, the two `utcnow` readings, the CMR
response, and oracles for download outcomes and response bodies).
Timestamps are UTC instants modelled as seconds since the Unix epoch;
`strftime("%Y-%m-%dT%H:%M:%SZ")` is modelled by `NRT.utcFormat` via the
standard civil-from-days calendar conversion.
-/

namespace NRT

/-- Two-digit zero padding, as produced by `strftime` fields `%m %d %H %M %S`. -/
def pad2 (n : Nat) : String :=
  if n < 10 then "0" ++ toString n else toString n

/-- Four-digit zero padding for the `%Y` field of `strftime`. -/
def pad4 (n : Nat) : String :=
  if n < 10 then "000" ++ toString n
  else if n < 100 then "00" ++ toString n
  else if n < 1000 then "0" ++ toString n
  else toString n

/-- Gregorian date (year, month, day) of day number `z` counted from
1970-01-01, by the standard civil-from-days conversion. -/
def civilFromDays (z : Nat) : Nat × Nat × Nat :=
  let z' := z + 719468
  let era := z' / 146097
  let doe := z' % 146097
  let yoe := (doe - doe / 1460 + doe / 36524 - doe / 146097) / 365
  let y := yoe + era * 400
  let doy := doe - (365 * yoe + yoe / 4 - yoe / 100)
  let mp := (5 * doy + 2) / 153
  let d := doy - (153 * mp + 2) / 5 + 1
  let m := if mp < 10 then mp + 3 else mp - 9
  (if m ≤ 2 then y + 1 else y, m, d)

/-- Model of `datetime.utcfromtimestamp(t).strftime("%Y-%m-%dT%H:%M:%SZ")`:
format an epoch-seconds instant in the notebook's timestamp format. -/
def utcFormat (t : Nat) : String :=
  let ymd := civilFromDays (t / 86400)
  let secs := t % 86400
  pad4 ymd.1 ++ "-" ++ pad2 ymd.2.1 ++ "-" ++ pad2 ymd.2.2 ++ "T" ++
    pad2 (secs / 3600) ++ ":" ++ pad2 (secs % 3600 / 60) ++ ":" ++
    pad2 (secs % 60) ++ "Z"

/-- Uppercase hexadecimal digit, used by percent-encoding. -/
def hexDigitChar (n : Nat) : Char :=
  if n < 10 then Char.ofNat (48 + n) else Char.ofNat (55 + n)

/-- Percent-encoding of one byte value, `%XX` with uppercase hex. -/
def percentByte (n : Nat) : String :=
  String.mk ['%', hexDigitChar (n / 16 % 16), hexDigitChar (n % 16)]

/-- Model of Python `urllib.parse.quote_plus` on one ASCII character
(`safe=''`, as used by `urlencode`): letters, digits and `_ . - ~` pass
through, space becomes `+`, everything else is percent-encoded. -/
def quotePlusChar (c : Char) : String :=
  if c.isAlphanum || c == '_' || c == '.' || c == '-' || c == '~' then
    String.singleton c
  else if c == ' ' then "+"
  else percentByte c.toNat

/-- Model of Python `urllib.parse.quote_plus` on an ASCII string. -/
def quotePlus (s : String) : String :=
  String.join (s.toList.map quotePlusChar)

/-- Model of Python `urllib.parse.urlencode` on an ordered key/value list
(Python dicts preserve insertion order). -/
def urlencode (ps : List (String × String)) : String :=
  String.intercalate "&" (ps.map (fun p => quotePlus p.1 ++ "=" ++ quotePlus p.2))

/-- The `params` dict of the notebook's query cell, in insertion order.
`page_size` is the integer 2000, stringified by `urlencode`; the bounding
box is the hardcoded Gulf-of-Alaska box. -/
def cmrParams (ccid timestamp : String) : List (String × String) :=
  [("scroll", "true"),
   ("page_size", "2000"),
   ("sort_key", "-start_date"),
   ("collection_concept_id", ccid),
   ("created_at", timestamp),
   ("bounding_box", "-146.5,57.5,-146,58")]

/-- The search URL cell: `https://{cmr}/search/granules.umm_json?{query}`. -/
def cmrQueryUrl (cmr ccid timestamp : String) : String :=
  "https://" ++ cmr ++ "/search/granules.umm_json?" ++ urlencode (cmrParams ccid timestamp)

/-- One entry of a granule record's `umm.RelatedUrls` list. -/
structure RelatedUrl where
  URL : String
  Type' : String
deriving Repr, DecidableEq

/-- A granule record, as consumed by the notebook: only `umm.RelatedUrls`
is read. -/
structure Granule where
  RelatedUrls : List RelatedUrl
deriving Repr, DecidableEq

/-- The parsed `umm_json` response: total hit count and the (first page of)
granule items. -/
structure Results where
  hits : Nat
  items : List Granule
deriving Repr, DecidableEq

/-- Model of the inner comprehension
`[u['URL'] for u in r['umm']['RelatedUrls'] if u['Type']=="GET DATA"][0]`:
the first `GET DATA` URL of a record, `none` when the filtered list is
empty (Python raises `IndexError` there). -/
def selectUrl (r : Granule) : Option String :=
  ((r.RelatedUrls.filter (fun u => u.Type' == "GET DATA")).map RelatedUrl.URL).head?

/-- Model of the `downloads` comprehension over all items: `none` as soon as
any record has no `GET DATA` link (the `IndexError` aborts the whole cell,
before any download happens). -/
def selectDownloads : List Granule → Option (List String)
  | [] => some []
  | r :: rest =>
    match selectUrl r with
    | none => none
    | some u =>
      match selectDownloads rest with
      | none => none
      | some us => some (u :: us)

/-- Model of `os.path.basename` on a URL string: everything after the last
`/` (the whole string when it has no slash), as `posixpath.basename` slices
after `rfind('/')`. -/
def basename (p : String) : String :=
  String.mk ((p.toList.reverse.takeWhile (fun c => c != '/')).reverse)

/-- Local download target of the loop: `f"{data}/{basename(f)}"`. -/
def dest (data u : String) : String :=
  data ++ "/" ++ basename u

/-- The download loop: attempt the URLs in order; return the successfully
retrieved prefix and the first failing URL, if any (`urlretrieve` raising
re-raises and aborts the loop). -/
def downloadLoop (ok : String → Bool) : List String → List String × Option String
  | [] => ([], none)
  | u :: rest =>
    if ok u then
      let r := downloadLoop ok rest
      (u :: r.1, r.2)
    else ([], some u)

/-- Sequential filesystem writes: apply `(path, contents)` pairs in order to
a map from paths to contents; a later write to the same path overwrites. -/
def applyWrites (fs : String → Option String) : List (String × String) → (String → Option String)
  | [] => fs
  | w :: rest => applyWrites (fun q => if q = w.1 then some w.2 else fs q) rest

/-- Contents of the single path `p` after applying the `(path, contents)`
writes in order on top of prior contents `pre`: each write whose path is
`p` overwrites, every other write leaves `p` alone. -/
def overlayWrites (pre : Option String) (p : String) : List (String × String) → Option String
  | [] => pre
  | w :: rest => overlayWrites (if w.1 = p then some w.2 else pre) p rest

/-- The watermark-resolution cell: the default timestamp survives when the
data directory is missing (it is then created) or when `.update` is absent;
otherwise the variable is replaced by the file's raw contents, exactly as
`f.read()` returns them. -/
def resolveTimestamp (dirExists : Bool) (updateFile : Option String) (defaultTs : String) : String :=
  if dirExists then updateFile.getD defaultTs else defaultTs

/-- Environment of one notebook run: pre-run filesystem state, the two
`utcnow()` readings (cell order: `t0` before the query, `t1` right after it
returns), the CMR response, and oracles giving each URL's download outcome
and body. -/
structure Env where
  dirExists : Bool
  updateFile : Option String
  t0 : Nat
  t1 : Nat
  response : Results
  dlOk : String → Bool
  body : String → String
  files : String → Option String

/-- The papermill parameter cell. -/
structure Config where
  mins : Nat
  cmr : String
  ccid : String
  data : String
deriving Repr, DecidableEq

/-- Path of the watermark file inside the data directory,
`f"{data}/.update"`. -/
def updatePath (cfg : Config) : String := cfg.data ++ "/.update"

/-- Observable events of one run, in order. -/
inductive Event where
  | mkdirEvent (path : String)
  | getRequest (url : String)
  | downloadEvent (url : String) (target : String)
  | writeEvent (path : String) (contents : String)
deriving Repr, DecidableEq

/-- Whether an event is the HTTP GET of the catalog query. -/
def Event.isGet : Event → Bool
  | Event.getRequest _ => true
  | _ => false

/-- Outcome of one run. -/
structure RunOut where
  dirCreated : Bool
  warned : Bool
  createdAt : String
  url : String
  capture : String
  downloads : Option (List String)
  attempted : List String
  written : List String
  failedUrl : Option String
  files : String → Option String
  finalUpdate : Option String
  events : List Event

/-- One top-to-bottom run of the notebook's workflow cells: compute the
default timestamp, resolve the watermark from `.update`, build the query
URL, issue the GET and recapture `utcnow`, select the download URLs, run
the download loop, and overwrite `.update` with the captured timestamp iff
the item list was non-empty and nothing raised.  The download loop writes
to `f"{data}/{basename(f)}"` in the same directory as the watermark file,
so a URL whose final path segment is `.update` lands on the watermark file
itself: `finalUpdate` therefore tracks the `.update` path through the
download-loop writes (`overlayWrites`) and then the final watermark write.
`files` records the download-loop writes. -/
def run (cfg : Config) (env : Env) : RunOut :=
  let defaultTs := utcFormat (env.t0 - 60 * cfg.mins)
  let pre : Option String := if env.dirExists then env.updateFile else none
  let ts := resolveTimestamp env.dirExists env.updateFile defaultTs
  let url := cmrQueryUrl cfg.cmr cfg.ccid ts
  let capture := utcFormat env.t1
  let mkEvents : List Event := if env.dirExists then [] else [Event.mkdirEvent cfg.data]
  match selectDownloads env.response.items with
  | none =>
    { dirCreated := !env.dirExists
      warned := env.dirExists && env.updateFile.isNone
      createdAt := ts
      url := url
      capture := capture
      downloads := none
      attempted := []
      written := []
      failedUrl := none
      files := env.files
      finalUpdate := pre
      events := mkEvents ++ [Event.getRequest url] }
  | some urls =>
    let r := downloadLoop env.dlOk urls
    let attempted := r.1 ++ r.2.toList
    let written := r.1.map (dest cfg.data)
    let dlWrites := r.1.map (fun u => (dest cfg.data u, env.body u))
    let files := applyWrites env.files dlWrites
    let afterDl := overlayWrites pre (updatePath cfg) dlWrites
    let finalUpdate :=
      match r.2 with
      | some _ => afterDl
      | none => if 0 < env.response.items.length then some capture else afterDl
    let events :=
      mkEvents ++ [Event.getRequest url] ++
        attempted.map (fun u => Event.downloadEvent u (dest cfg.data u)) ++
        (match r.2 with
         | some _ => []
         | none =>
           if 0 < env.response.items.length then
             [Event.writeEvent (updatePath cfg) capture]
           else [])
    { dirCreated := !env.dirExists
      warned := env.dirExists && env.updateFile.isNone
      createdAt := ts
      url := url
      capture := capture
      downloads := some urls
      attempted := attempted
      written := written
      failedUrl := r.2
      files := files
      finalUpdate := finalUpdate
      events := events }

/-- Numeric value of a decimal digit character. -/
def digitVal (c : Char) : Nat := c.toNat - 48

/-- Parsing of the spec's timestamp format `YYYY-MM-DDThh:mm:ssZ` into its
six calendar fields, `none` on any malformed input.  The notebook never
parses the watermark; this definition exists to compare the notebook's
read behaviour with the specified one. -/
def parseTimestamp (s : String) : Option (Nat × Nat × Nat × Nat × Nat × Nat) :=
  match s.toList with
  | [y1, y2, y3, y4, '-', m1, m2, '-', d1, d2, 'T',
     h1, h2, ':', n1, n2, ':', s1, s2, 'Z'] =>
    if ([y1, y2, y3, y4, m1, m2, d1, d2, h1, h2, n1, n2, s1, s2].all Char.isDigit) then
      let y := 1000 * digitVal y1 + 100 * digitVal y2 + 10 * digitVal y3 + digitVal y4
      let mo := 10 * digitVal m1 + digitVal m2
      let d := 10 * digitVal d1 + digitVal d2
      let h := 10 * digitVal h1 + digitVal h2
      let mi := 10 * digitVal n1 + digitVal n2
      let se := 10 * digitVal s1 + digitVal s2
      if 1 ≤ mo ∧ mo ≤ 12 ∧ 1 ≤ d ∧ d ≤ 31 ∧ h ≤ 23 ∧ mi ≤ 59 ∧ se ≤ 59 then
        some (y, mo, d, h, mi, se)
      else none
    else none
  | _ => none

/-- Whitespace predicate used by trimming. -/
def isSpaceChar (c : Char) : Bool :=
  c == ' ' || c == '\t' || c == '\n' || c == '\r'

/-- Trimming of leading and trailing whitespace, as the spec's "trimmed
contents" requires. -/
def trimString (s : String) : String :=
  String.mk (((s.toList.dropWhile isSpaceChar).reverse.dropWhile isSpaceChar).reverse)

/-- Error taxonomy entry of the specification's Watermark Store. -/
inductive WatermarkError where
  | CorruptWatermark
deriving Repr, DecidableEq

/-- Specification-side read of an existing watermark file, following the
spec's words: return the file's trimmed contents parsed as a timestamp,
fail with `CorruptWatermark` if the contents do not parse.  Stated only to
be compared with `resolveTimestamp`, the notebook's actual read. -/
def readWatermarkSpec (contents : String) : Except WatermarkError (Nat × Nat × Nat × Nat × Nat × Nat) :=
  match parseTimestamp (trimString contents) with
  | some t => Except.ok t
  | none => Except.error WatermarkError.CorruptWatermark

/-- Success condition of one pass: a non-empty item list, a `GET DATA` link
found for every item, and every selected download succeeding. -/
def passOk (env : Env) : Bool :=
  decide (0 < env.response.items.length) &&
    (match selectDownloads env.response.items with
     | none => false
     | some urls => urls.all env.dlOk)

/-- The download loop retrieves exactly the longest all-succeeding prefix and
stops at the first failing URL. -/
theorem downloadLoop_eq (ok : String → Bool) (l : List String) :
    downloadLoop ok l = (l.takeWhile ok, (l.dropWhile ok).head?) := by
  induction l with
  | nil => rfl
  | cons u rest ih =>
    by_cases h : ok u
    · simp [downloadLoop, h, ih, List.takeWhile_cons_of_pos, List.dropWhile_cons_of_pos]
    · simp [downloadLoop, h, List.takeWhile_cons_of_neg, List.dropWhile_cons_of_neg]

/-- The loop reports no failure exactly when every URL downloads
successfully. -/
theorem downloadLoop_snd_eq_none (ok : String → Bool) (l : List String) :
    (downloadLoop ok l).2 = none ↔ l.all ok = true := by
  rw [downloadLoop_eq]
  simp [List.head?_eq_none_iff, List.dropWhile_eq_nil_iff, List.all_eq_true]

/-- Head of filter equals the first match found in list order. -/
theorem head_filter_eq_find (p : RelatedUrl → Bool) (l : List RelatedUrl) :
    ((l.filter p).map RelatedUrl.URL).head? = (l.find? p).map RelatedUrl.URL := by
  induction l with
  | nil => rfl
  | cons u rest ih =>
    by_cases h : p u
    · simp [List.filter_cons, List.find?_cons, h]
    · simp [List.filter_cons, List.find?_cons, h, ih]

/-- If any record of the item list has no `GET DATA` link, the whole
`downloads` comprehension fails. -/
theorem selectDownloads_eq_none_of_mem (items : List Granule) (g : Granule)
    (hg : g ∈ items) (hnone : selectUrl g = none) : selectDownloads items = none := by
  induction items with
  | nil => cases hg
  | cons r rest ih =>
    cases hg with
    | head => unfold selectDownloads; rw [hnone]
    | tail _ htail =>
      unfold selectDownloads
      cases h : selectUrl r with
      | none => rfl
      | some u => rw [ih htail]

/-- A path not written by any of the writes keeps its previous contents. -/
theorem applyWrites_eq_of_not_mem (fs : String → Option String)
    (ws : List (String × String)) (p : String) (h : p ∉ ws.map Prod.fst) :
    applyWrites fs ws p = fs p := by
  induction ws generalizing fs with
  | nil => rfl
  | cons w rest ih =>
    simp only [List.map_cons, List.mem_cons, not_or] at h
    unfold applyWrites
    rw [ih _ h.2]
    simp [h.1]

/-- With pairwise-distinct target paths, each written path holds the
contents written for it. -/
theorem applyWrites_lookup (fs : String → Option String)
    (ws : List (String × String)) (p : String) (c : String)
    (hnd : (ws.map Prod.fst).Nodup) (hmem : (p, c) ∈ ws) :
    applyWrites fs ws p = some c := by
  induction ws generalizing fs with
  | nil => cases hmem
  | cons w rest ih =>
    simp only [List.map_cons, List.nodup_cons] at hnd
    cases hmem with
    | head =>
      unfold applyWrites
      rw [applyWrites_eq_of_not_mem _ _ _ hnd.1]
      simp
    | tail _ htail => exact ih _ hnd.2 htail

/-- A path not targeted by any of the writes keeps its prior contents. -/
theorem overlayWrites_not_mem (pre : Option String) (p : String)
    (ws : List (String × String)) (h : p ∉ ws.map Prod.fst) :
    overlayWrites pre p ws = pre := by
  induction ws generalizing pre with
  | nil => rfl
  | cons w rest ih =>
    simp only [List.map_cons, List.mem_cons, not_or] at h
    unfold overlayWrites
    rw [if_neg (fun hh => h.1 hh.symm)]
    exact ih _ h.2

/-- Resolution falls back to the default when the directory is missing. -/
theorem resolveTimestamp_no_dir (uf : Option String) (d : String) :
    resolveTimestamp false uf d = d := rfl

/-- Resolution falls back to the default when `.update` is absent. -/
theorem resolveTimestamp_no_file (d : String) :
    resolveTimestamp true none d = d := rfl

/-- Resolution returns the file's raw contents when present. -/
theorem resolveTimestamp_file (c d : String) :
    resolveTimestamp true (some c) d = c := rfl

/-- The resolved watermark of a run. -/
theorem run_createdAt (cfg : Config) (env : Env) :
    (run cfg env).createdAt =
      resolveTimestamp env.dirExists env.updateFile (utcFormat (env.t0 - 60 * cfg.mins)) := by
  unfold run
  cases hsel : selectDownloads env.response.items <;> rfl

/-- The query URL of a run. -/
theorem run_url (cfg : Config) (env : Env) :
    (run cfg env).url =
      cmrQueryUrl cfg.cmr cfg.ccid
        (resolveTimestamp env.dirExists env.updateFile (utcFormat (env.t0 - 60 * cfg.mins))) := by
  unfold run
  cases hsel : selectDownloads env.response.items <;> rfl

/-- The captured candidate timestamp of a run. -/
theorem run_capture (cfg : Config) (env : Env) :
    (run cfg env).capture = utcFormat env.t1 := by
  unfold run
  cases hsel : selectDownloads env.response.items <;> rfl

/-- The directory-creation flag of a run. -/
theorem run_dirCreated (cfg : Config) (env : Env) :
    (run cfg env).dirCreated = !env.dirExists := by
  unfold run
  cases hsel : selectDownloads env.response.items <;> rfl

/-- The missing-watermark warning flag of a run. -/
theorem run_warned (cfg : Config) (env : Env) :
    (run cfg env).warned = (env.dirExists && env.updateFile.isNone) := by
  unfold run
  cases hsel : selectDownloads env.response.items <;> rfl

/-- Sample granule with one `GET DATA` link. -/
def g1 : Granule := ⟨[⟨"https://h.org/a/granule1.nc", "GET DATA"⟩]⟩

/-- Sample granule with a metadata link before its `GET DATA` link. -/
def g2 : Granule :=
  ⟨[⟨"https://h.org/a/meta2.xml", "EXTENDED METADATA"⟩,
    ⟨"https://h.org/a/granule2.nc", "GET DATA"⟩]⟩

/-- Sample granule with no `GET DATA` link at all. -/
def gBad : Granule := ⟨[⟨"https://h.org/a/meta.xml", "EXTENDED METADATA"⟩]⟩

/-- The notebook's default parameter cell. -/
def cfg0 : Config :=
  ⟨20, "cmr.uat.earthdata.nasa.gov", "C1234724471-POCLOUD", "resources/nrt"⟩

/-- A healthy environment: directory and watermark present, two granules,
all downloads succeed. -/
def env0 : Env :=
  { dirExists := true
    updateFile := some "2020-09-02T16:00:00Z"
    t0 := 1599064000
    t1 := 1599065192
    response := ⟨2, [g1, g2]⟩
    dlOk := fun _ => true
    body := fun _ => "data"
    files := fun _ => none }

/-- A follow-up environment whose watermark is the previous run's capture. -/
def env1 : Env := { env0 with updateFile := some "2020-09-02T16:46:32Z", t1 := 1599065300 }

/-- An environment whose watermark file holds junk. -/
def envJunk : Env := { env0 with updateFile := some "not-a-timestamp" }

/-- A first-run environment: no data directory yet. -/
def envFresh : Env := { env0 with dirExists := false, updateFile := none }

/-- An environment whose second granule has no `GET DATA` link. -/
def envNoLink : Env := { env0 with response := ⟨2, [g1, gBad]⟩ }

/-- An environment in which the second download fails. -/
def envFail : Env := { env0 with dlOk := fun u => u != "https://h.org/a/granule2.nc" }

/-- Sample granule whose `GET DATA` URL has final path segment `.update`,
so its download target is the watermark file itself. -/
def gAlias : Granule := ⟨[⟨"https://h.org/a/.update", "GET DATA"⟩]⟩

/-- An environment whose first download lands on the watermark file and
whose second download fails. -/
def envAlias : Env :=
  { env0 with
    response := ⟨2, [gAlias, g2]⟩
    dlOk := fun u => u != "https://h.org/a/granule2.nc" }

/-- The URLs selected from `env0`'s response. -/
def dlUrls : List String := ["https://h.org/a/granule1.nc", "https://h.org/a/granule2.nc"]

/-- A parameter cell differing from `cfg0` only in the lookback minutes. -/
def cfgAltMins : Config := { cfg0 with mins := 500 }

/-- Like `env0` but observed at a different pre-query instant. -/
def envAltT0 : Env := { env0 with t0 := 42 }

/-- Attempted URLs of a run whose selection succeeded: the successful
prefix followed by the first failing URL, nothing beyond it. -/
theorem run_attempted_some (cfg : Config) (env : Env) (urls : List String)
    (hsel : selectDownloads env.response.items = some urls) :
    (run cfg env).attempted =
      urls.takeWhile env.dlOk ++ ((urls.dropWhile env.dlOk).head?).toList := by
  unfold run
  cases hsel' : selectDownloads env.response.items with
  | none => rw [hsel] at hsel'; cases hsel'
  | some us =>
    rw [hsel] at hsel'
    injection hsel' with h
    subst h
    simp only [downloadLoop_eq]

/-- Written paths of a run whose selection succeeded. -/
theorem run_written_some (cfg : Config) (env : Env) (urls : List String)
    (hsel : selectDownloads env.response.items = some urls) :
    (run cfg env).written = (urls.takeWhile env.dlOk).map (dest cfg.data) := by
  unfold run
  cases hsel' : selectDownloads env.response.items with
  | none => rw [hsel] at hsel'; cases hsel'
  | some us =>
    rw [hsel] at hsel'
    injection hsel' with h
    subst h
    simp only [downloadLoop_eq]

/-- First failing URL of a run whose selection succeeded. -/
theorem run_failedUrl_some (cfg : Config) (env : Env) (urls : List String)
    (hsel : selectDownloads env.response.items = some urls) :
    (run cfg env).failedUrl = (urls.dropWhile env.dlOk).head? := by
  unfold run
  cases hsel' : selectDownloads env.response.items with
  | none => rw [hsel] at hsel'; cases hsel'
  | some us =>
    rw [hsel] at hsel'
    injection hsel' with h
    subst h
    simp only [downloadLoop_eq]

/-- Final data files of a run whose selection succeeded: the pre-run files
overlaid, in loop order, with one write per successfully downloaded URL. -/
theorem run_files_some (cfg : Config) (env : Env) (urls : List String)
    (hsel : selectDownloads env.response.items = some urls) :
    (run cfg env).files =
      applyWrites env.files
        ((urls.takeWhile env.dlOk).map (fun u => (dest cfg.data u, env.body u))) := by
  unfold run
  cases hsel' : selectDownloads env.response.items with
  | none => rw [hsel] at hsel'; cases hsel'
  | some us =>
    rw [hsel] at hsel'
    injection hsel' with h
    subst h
    simp only [downloadLoop_eq]

/-- The download loop leaves no failure exactly when every URL succeeds. -/
theorem head_dropWhile_eq_none (ok : String → Bool) (l : List String) :
    (l.dropWhile ok).head? = none ↔ l.all ok = true := by
  simp [List.head?_eq_none_iff, List.dropWhile_eq_nil_iff, List.all_eq_true]

/-- Watermark contents after a run that aborted in selection: untouched. -/
theorem run_finalUpdate_none (cfg : Config) (env : Env)
    (hsel : selectDownloads env.response.items = none) :
    (run cfg env).finalUpdate = (if env.dirExists then env.updateFile else none) := by
  unfold run
  cases hsel' : selectDownloads env.response.items with
  | none => rfl
  | some us => rw [hsel] at hsel'; cases hsel'

/-- Watermark contents after a run with a failed download: the pre-run
contents overlaid with the successful downloads' writes (which alias the
watermark file exactly when a target path is `{data}/.update`). -/
theorem run_finalUpdate_some_fail (cfg : Config) (env : Env) (urls : List String) (u : String)
    (hsel : selectDownloads env.response.items = some urls)
    (hfail : (urls.dropWhile env.dlOk).head? = some u) :
    (run cfg env).finalUpdate =
      overlayWrites (if env.dirExists then env.updateFile else none) (updatePath cfg)
        ((urls.takeWhile env.dlOk).map (fun v => (dest cfg.data v, env.body v))) := by
  unfold run
  cases hsel' : selectDownloads env.response.items with
  | none => rw [hsel] at hsel'; cases hsel'
  | some us =>
    rw [hsel] at hsel'
    injection hsel' with h
    subst h
    simp only [downloadLoop_eq, hfail]

/-- Watermark contents after a fully successful non-empty run: exactly the
captured timestamp (the final write wins over any aliasing download). -/
theorem run_finalUpdate_some_ok_pos (cfg : Config) (env : Env) (urls : List String)
    (hsel : selectDownloads env.response.items = some urls)
    (hfail : (urls.dropWhile env.dlOk).head? = none)
    (hlen : 0 < env.response.items.length) :
    (run cfg env).finalUpdate = some (utcFormat env.t1) := by
  unfold run
  cases hsel' : selectDownloads env.response.items with
  | none => rw [hsel] at hsel'; cases hsel'
  | some us =>
    rw [hsel] at hsel'
    injection hsel' with h
    subst h
    simp only [downloadLoop_eq, hfail]
    simp [hlen]

/-- Watermark contents after a fully successful run over an empty result
set: the item list is empty, so no URL was selected and the file keeps its
pre-run contents. -/
theorem run_finalUpdate_some_ok_zero (cfg : Config) (env : Env) (urls : List String)
    (hsel : selectDownloads env.response.items = some urls)
    (hfail : (urls.dropWhile env.dlOk).head? = none)
    (hlen : ¬ 0 < env.response.items.length) :
    (run cfg env).finalUpdate = (if env.dirExists then env.updateFile else none) := by
  have hitems : env.response.items = [] := by
    cases hi : env.response.items with
    | nil => rfl
    | cons a l => rw [hi] at hlen; simp at hlen
  have hurls : urls = [] := by
    have h' := hsel
    rw [hitems] at h'
    unfold selectDownloads at h'
    injection h' with h'
    exact h'.symm
  unfold run
  cases hsel' : selectDownloads env.response.items with
  | none =>
    exfalso
    rw [hsel] at hsel'
    exact Option.noConfusion hsel'
  | some us =>
    rw [hsel] at hsel'
    injection hsel' with h
    subst h
    simp only [downloadLoop_eq, hfail]
    simp [hlen, hurls, overlayWrites]

/-- C1 counterexample: a `GET DATA` URL whose basename is `.update` is
retrieved onto the watermark file itself; when the next download then
fails, the run aborts with the watermark file holding the downloaded body
— not its pre-run contents — refuting "in every other case the watermark
file's contents are byte-for-byte unchanged". -/
theorem C1_watermark_counterexample :
    (run cfg0 envAlias).failedUrl = some "https://h.org/a/granule2.nc" ∧
    (run cfg0 envAlias).written = [updatePath cfg0] ∧
    envAlias.dirExists = true ∧
    envAlias.updateFile = some "2020-09-02T16:00:00Z" ∧
    (run cfg0 envAlias).finalUpdate = some "data" ∧
    (run cfg0 envAlias).finalUpdate ≠
      (if envAlias.dirExists then envAlias.updateFile else none) := by
  exact ⟨by decide, by decide, rfl, rfl, by decide, by decide⟩

/-- C1 amended: for every run in which no successful download's target is
the watermark file itself (no selected URL has basename `.update`), the
watermark file is overwritten with the candidate timestamp iff the result
set has at least one item, every item has a `GET DATA` link, and no
download failed; in every other case (empty result set, selection failure,
download failure after any number of successes) the file's contents are
exactly their pre-run value. -/
theorem C1_watermark_advance_iff (cfg : Config) (env : Env)
    (hno : updatePath cfg ∉ (run cfg env).written) :
    (run cfg env).finalUpdate =
      if passOk env then some (utcFormat env.t1)
      else if env.dirExists then env.updateFile else none := by
  cases hsel : selectDownloads env.response.items with
  | none =>
    have hp : passOk env = false := by
      unfold passOk
      rw [hsel]
      simp
    rw [run_finalUpdate_none cfg env hsel, hp]
    simp
  | some urls =>
    rw [run_written_some cfg env urls hsel] at hno
    cases hfail : (urls.dropWhile env.dlOk).head? with
    | none =>
      have hall : urls.all env.dlOk = true := (head_dropWhile_eq_none _ _).mp hfail
      by_cases hlen : 0 < env.response.items.length
      · have hp : passOk env = true := by
          unfold passOk
          rw [hsel]
          simp [hall, hlen]
        rw [run_finalUpdate_some_ok_pos cfg env urls hsel hfail hlen, hp]
        simp
      · have hp : passOk env = false := by
          unfold passOk
          rw [hsel]
          simp [hlen]
        rw [run_finalUpdate_some_ok_zero cfg env urls hsel hfail hlen, hp]
        simp
    | some u =>
      have hab : urls.all env.dlOk = false := by
        cases hab' : urls.all env.dlOk
        · rfl
        · rw [(head_dropWhile_eq_none _ _).mpr hab'] at hfail
          cases hfail
      have hp : passOk env = false := by
        unfold passOk
        rw [hsel]
        simp [hab]
      rw [run_finalUpdate_some_fail cfg env urls u hsel hfail, hp]
      rw [overlayWrites_not_mem]
      · simp
      · have hmap :
            (((urls.takeWhile env.dlOk).map (fun v => (dest cfg.data v, env.body v))).map
              Prod.fst) = (urls.takeWhile env.dlOk).map (dest cfg.data) := by
          rw [List.map_map]
          rfl
        rw [hmap]
        exact hno

/-- C1 witness: in the healthy two-granule pass no target aliases the
watermark file, and the advance-iff conditional holds concretely. -/
theorem C1_watermark_advance_iff_witness :
    (run cfg0 env0).finalUpdate =
      if passOk env0 then some (utcFormat env0.t1)
      else if env0.dirExists then env0.updateFile else none :=
  C1_watermark_advance_iff cfg0 env0 (by decide)

/-- C2: the watermark is monotonically non-decreasing across successful
runs — if run `k` stored `w` and run `k+1` reads that stored value, fails
no download, and its capture time formats no earlier than `w`, then the
value stored after run `k+1` is `≥ w` (in the lexicographic order of the
fixed-width timestamp format). -/
theorem C2_watermark_monotonic (cfg cfg' : Config) (env env' : Env) (w : String)
    (h1 : (run cfg env).finalUpdate = some w)
    (h2 : env'.dirExists = true)
    (h3 : env'.updateFile = some w)
    (h4 : w ≤ utcFormat env'.t1)
    (h5 : (run cfg' env').failedUrl = none) :
    ∃ w', (run cfg' env').finalUpdate = some w' ∧ w ≤ w' := by
  cases hsel : selectDownloads env'.response.items with
  | none =>
    refine ⟨w, ?_, le_refl w⟩
    rw [run_finalUpdate_none cfg' env' hsel, h2, h3]
    rfl
  | some urls =>
    have hfail : (urls.dropWhile env'.dlOk).head? = none := by
      rw [← run_failedUrl_some cfg' env' urls hsel]
      exact h5
    by_cases hlen : 0 < env'.response.items.length
    · exact ⟨utcFormat env'.t1,
        run_finalUpdate_some_ok_pos cfg' env' urls hsel hfail hlen, h4⟩
    · refine ⟨w, ?_, le_refl w⟩
      rw [run_finalUpdate_some_ok_zero cfg' env' urls hsel hfail hlen, h2, h3]
      rfl

/-- C2 witness: a concrete successful pass stores `2020-09-02T16:46:32Z`,
and the follow-up successful run reading it can only move the watermark
forward. -/
theorem C2_watermark_monotonic_witness :
    ∃ w', (run cfg0 env1).finalUpdate = some w' ∧ "2020-09-02T16:46:32Z" ≤ w' :=
  C2_watermark_monotonic cfg0 cfg0 env0 env1 "2020-09-02T16:46:32Z"
    (by decide) (by decide) (by decide)
    (by rw [String.le_iff_toList_le]; decide) (by decide)

/-- C3: the candidate timestamp is the formatted post-query instant `t1`
(it does not depend on the pre-query instant `t0`), and a fully successful
non-empty pass writes exactly that captured value. -/
theorem C3_capture_after_query (cfg : Config) (env : Env) (t0' : Nat)
    (hok : passOk env = true) :
    (run cfg env).capture = utcFormat env.t1 ∧
    (run cfg { env with t0 := t0' }).capture = (run cfg env).capture ∧
    (run cfg env).finalUpdate = some ((run cfg env).capture) := by
  unfold passOk at hok
  refine ⟨?_, ?_, ?_⟩
  · unfold run
    cases hsel : selectDownloads env.response.items <;> simp
  · unfold run
    cases hsel : selectDownloads env.response.items <;> simp
  · unfold run
    cases hsel : selectDownloads env.response.items with
    | none => rw [hsel] at hok; simp at hok
    | some urls =>
      rw [hsel] at hok
      simp only [Bool.and_eq_true, decide_eq_true_eq] at hok
      have hfail : (downloadLoop env.dlOk urls).2 = none :=
        (downloadLoop_snd_eq_none _ _).mpr hok.2
      simp [hfail, hok.1]

/-- C3 witness: the healthy two-granule pass captures the post-query
instant and persists exactly it. -/
theorem C3_capture_after_query_witness :
    (run cfg0 env0).capture = utcFormat env0.t1 ∧
    (run cfg0 { env0 with t0 := 0 }).capture = (run cfg0 env0).capture ∧
    (run cfg0 env0).finalUpdate = some ((run cfg0 env0).capture) :=
  C3_capture_after_query cfg0 env0 0 (by decide)

/-- C4 counterexample: with the data directory and watermark file both
present, the notebook's read returns the raw contents `"not-a-timestamp"`
— which does not parse, even after trimming — instead of failing with
`CorruptWatermark` as the claim states; likewise contents with a trailing
newline are returned untrimmed.  Only the specification-side read rejects
them. -/
theorem C4_read_counterexample :
    resolveTimestamp true (some "not-a-timestamp") "2020-01-01T00:00:00Z" = "not-a-timestamp" ∧
    parseTimestamp (trimString "not-a-timestamp") = none ∧
    resolveTimestamp true (some "2020-09-02T16:46:32Z\n") "2020-01-01T00:00:00Z" =
      "2020-09-02T16:46:32Z\n" ∧
    parseTimestamp "2020-09-02T16:46:32Z\n" = none ∧
    parseTimestamp (trimString "2020-09-02T16:46:32Z\n") = some (2020, 9, 2, 16, 46, 32) ∧
    readWatermarkSpec "not-a-timestamp" = Except.error WatermarkError.CorruptWatermark := by
  exact ⟨rfl, by decide, rfl, by decide, by decide, rfl⟩

/-- C4 amended: when the data directory and the watermark file both exist,
the read returns the file's contents verbatim — untrimmed and unparsed —
and that raw string (valid timestamp or not) becomes the run's `created_at`
value; no `CorruptWatermark` failure exists in the code. -/
theorem C4_read_returns_raw_contents (c d : String) (cfg : Config) (env : Env)
    (h1 : env.dirExists = true) (h2 : env.updateFile = some c) :
    resolveTimestamp true (some c) d = c ∧ (run cfg env).createdAt = c := by
  constructor
  · rfl
  · unfold run
    cases hsel : selectDownloads env.response.items <;>
      simp [resolveTimestamp, h1, h2]

/-- C4 witness: junk watermark contents flow through the read into the
run's `created_at` unchanged. -/
theorem C4_read_returns_raw_contents_witness :
    resolveTimestamp true (some "not-a-timestamp") "d" = "not-a-timestamp" ∧
    (run cfg0 envJunk).createdAt = "not-a-timestamp" :=
  C4_read_returns_raw_contents "not-a-timestamp" "d" cfg0 envJunk (by decide) (by decide)

/-- C5: on a run without a data directory, the directory is created and the
query's `created_at` is the formatted instant `t0 - 60·mins`; when the
directory exists but the watermark file is absent, the same default is used
and the non-fatal warning is emitted (the run proceeds normally). -/
theorem C5_default_bootstrap (cfg : Config) (env : Env)
    (h : env.dirExists = false ∨ (env.dirExists = true ∧ env.updateFile = none)) :
    (run cfg env).createdAt = utcFormat (env.t0 - 60 * cfg.mins) ∧
    (env.dirExists = false →
      (run cfg env).dirCreated = true ∧ Event.mkdirEvent cfg.data ∈ (run cfg env).events) ∧
    (env.dirExists = true ∧ env.updateFile = none → (run cfg env).warned = true) := by
  refine ⟨?_, fun hd => ?_, fun hwf => ?_⟩
  · rcases h with h | ⟨hd, hf⟩
    · rw [run_createdAt, h, resolveTimestamp_no_dir]
    · rw [run_createdAt, hd, hf, resolveTimestamp_no_file]
  · refine ⟨by rw [run_dirCreated, hd]; rfl, ?_⟩
    unfold run
    cases hsel : selectDownloads env.response.items <;> simp [hd]
  · rw [run_warned, hwf.1, hwf.2]
    rfl

/-- C5 witness: the fresh-directory run creates the directory and queries
with `created_at` equal to the default lookback timestamp. -/
theorem C5_default_bootstrap_witness :
    (run cfg0 envFresh).createdAt = utcFormat (envFresh.t0 - 60 * cfg0.mins) ∧
    (envFresh.dirExists = false →
      (run cfg0 envFresh).dirCreated = true ∧
        Event.mkdirEvent cfg0.data ∈ (run cfg0 envFresh).events) ∧
    (envFresh.dirExists = true ∧ envFresh.updateFile = none →
      (run cfg0 envFresh).warned = true) :=
  C5_default_bootstrap cfg0 envFresh (Or.inl (by decide))

/-- C6: the selector returns the URL of the first related-links entry typed
`GET DATA` in list order (the canonical first match, with no reordering),
returns nothing when no entry matches, and any such missing link aborts the
run before a single download is attempted, leaving the watermark file
untouched. -/
theorem C6_select_first_get_data (cfg : Config) (env : Env) (r : Granule)
    (habort : ∃ g, g ∈ env.response.items ∧ selectUrl g = none) :
    selectUrl r = (r.RelatedUrls.find? (fun u => u.Type' == "GET DATA")).map RelatedUrl.URL ∧
    (run cfg env).downloads = none ∧
    (run cfg env).attempted = [] ∧
    (run cfg env).written = [] ∧
    (run cfg env).finalUpdate = (if env.dirExists then env.updateFile else none) := by
  obtain ⟨g, hg, hnone⟩ := habort
  have hsel : selectDownloads env.response.items = none :=
    selectDownloads_eq_none_of_mem _ g hg hnone
  refine ⟨head_filter_eq_find _ _, ?_, ?_, ?_, ?_⟩ <;> · unfold run; rw [hsel]

/-- C6 witness: with a granule lacking a `GET DATA` link among the items,
selection fails, nothing is attempted or written, and the watermark keeps
its pre-run contents; the healthy granule's selector still picks the first
`GET DATA` URL. -/
theorem C6_select_first_get_data_witness :
    selectUrl g2 = (g2.RelatedUrls.find? (fun u => u.Type' == "GET DATA")).map RelatedUrl.URL ∧
    (run cfg0 envNoLink).downloads = none ∧
    (run cfg0 envNoLink).attempted = [] ∧
    (run cfg0 envNoLink).written = [] ∧
    (run cfg0 envNoLink).finalUpdate =
      (if envNoLink.dirExists then envNoLink.updateFile else none) :=
  C6_select_first_get_data cfg0 envNoLink g2 ⟨gBad, by decide, by decide⟩

set_option maxRecDepth 8192 in
/-- C7: the query URL is built from the configured host and collection and
the resolved watermark, with scroll enabled, page size 2000, descending
start-date sort, the watermark as `created_at`, and the bounding-box
filter, URL-encoded onto `https://{host}/search/granules.umm_json`; at the
reference inputs the encoding yields exactly the expected URL (`:` as
`%3A`, `,` as `%2C`). -/
theorem C7_query_construction (cfg : Config) (env : Env) :
    (run cfg env).url = cmrQueryUrl cfg.cmr cfg.ccid ((run cfg env).createdAt) ∧
    cmrParams cfg.ccid ((run cfg env).createdAt) =
      [("scroll", "true"), ("page_size", "2000"), ("sort_key", "-start_date"),
       ("collection_concept_id", cfg.ccid), ("created_at", (run cfg env).createdAt),
       ("bounding_box", "-146.5,57.5,-146,58")] ∧
    cmrQueryUrl "cmr.uat.earthdata.nasa.gov" "C1234724471-POCLOUD" "2020-09-02T16:46:32Z" =
      "https://cmr.uat.earthdata.nasa.gov/search/granules.umm_json?scroll=true&page_size=2000&sort_key=-start_date&collection_concept_id=C1234724471-POCLOUD&created_at=2020-09-02T16%3A46%3A32Z&bounding_box=-146.5%2C57.5%2C-146%2C58" := by
  refine ⟨?_, rfl, by decide⟩
  rw [run_url, run_createdAt]

/-- C8: every run issues exactly one catalog GET, and the reported hit
count has no influence on what is selected, attempted, downloaded or
persisted — only the first page's item list is ever processed, with no
scroll or pagination follow-up. -/
theorem C8_single_get_first_page_only (cfg : Config) (env : Env) (n : Nat) :
    ((run cfg env).events.countP Event.isGet) = 1 ∧
    (run cfg { env with response := ⟨n, env.response.items⟩ }).downloads =
      (run cfg env).downloads ∧
    (run cfg { env with response := ⟨n, env.response.items⟩ }).attempted =
      (run cfg env).attempted ∧
    (run cfg { env with response := ⟨n, env.response.items⟩ }).written =
      (run cfg env).written := by
  refine ⟨?_, ?_, ?_, ?_⟩
  · unfold run
    cases hsel : selectDownloads env.response.items with
    | none => cases hde : env.dirExists <;> simp [Event.isGet]
    | some urls =>
      cases hde : env.dirExists <;>
        cases hfail : (downloadLoop env.dlOk urls).2 <;>
          by_cases hlen : 0 < env.response.items.length <;>
            simp [Event.isGet, hlen, hfail, hde, Function.comp]
  · unfold run
    cases hsel : selectDownloads env.response.items <;> rfl
  · unfold run
    cases hsel : selectDownloads env.response.items <;> rfl
  · unfold run
    cases hsel : selectDownloads env.response.items <;> rfl

/-- C9: downloads run sequentially in result-set order to
`data/basename(url)`; the attempted list stops right after the first
failure, already-retrieved files stay written (no cleanup or rollback),
and with pairwise-distinct target names each retrieved URL's target holds
that URL's body — overwriting whatever the pre-run filesystem had there. -/
theorem C9_sequential_downloads (cfg : Config) (env : Env) (urls : List String)
    (hsel : selectDownloads env.response.items = some urls) :
    (run cfg env).attempted =
      urls.takeWhile env.dlOk ++ ((urls.dropWhile env.dlOk).head?).toList ∧
    (run cfg env).written = (urls.takeWhile env.dlOk).map (dest cfg.data) ∧
    (run cfg env).failedUrl = (urls.dropWhile env.dlOk).head? ∧
    (run cfg env).files =
      applyWrites env.files
        ((urls.takeWhile env.dlOk).map (fun u => (dest cfg.data u, env.body u))) ∧
    (((urls.takeWhile env.dlOk).map (dest cfg.data)).Nodup →
      ∀ u ∈ urls.takeWhile env.dlOk,
        (run cfg env).files (dest cfg.data u) = some (env.body u)) := by
  refine ⟨run_attempted_some cfg env urls hsel, run_written_some cfg env urls hsel,
    run_failedUrl_some cfg env urls hsel, run_files_some cfg env urls hsel, ?_⟩
  intro hnd u hu
  rw [run_files_some cfg env urls hsel]
  have hmap :
      (((urls.takeWhile env.dlOk).map (fun u => (dest cfg.data u, env.body u))).map Prod.fst) =
        (urls.takeWhile env.dlOk).map (dest cfg.data) := by
    rw [List.map_map]
    rfl
  refine applyWrites_lookup _ _ _ _ (by rw [hmap]; exact hnd) ?_
  exact List.mem_map_of_mem _ hu

/-- C9 witness: with the second download failing, only the first file is
attempted and written, the failure is reported for the second URL, and the
first file's contents are in place. -/
theorem C9_sequential_downloads_witness :
    (run cfg0 envFail).attempted =
      dlUrls.takeWhile envFail.dlOk ++ ((dlUrls.dropWhile envFail.dlOk).head?).toList ∧
    (run cfg0 envFail).written = (dlUrls.takeWhile envFail.dlOk).map (dest cfg0.data) ∧
    (run cfg0 envFail).failedUrl = (dlUrls.dropWhile envFail.dlOk).head? ∧
    (run cfg0 envFail).files =
      applyWrites envFail.files
        ((dlUrls.takeWhile envFail.dlOk).map (fun u => (dest cfg0.data u, envFail.body u))) ∧
    (((dlUrls.takeWhile envFail.dlOk).map (dest cfg0.data)).Nodup →
      ∀ u ∈ dlUrls.takeWhile envFail.dlOk,
        (run cfg0 envFail).files (dest cfg0.data u) = some (envFail.body u)) :=
  C9_sequential_downloads cfg0 envFail dlUrls (by decide)

/-- C10: two runs whose existing watermark files hold the same contents
resolve the same `created_at` — and, with equal host and collection, the
same query URL — no matter how their lookback-minutes settings (and
pre-query clocks) differ; the lookback influences the query only when the
watermark file is absent. -/
theorem C10_lookback_no_influence (cfg cfg' : Config) (env env' : Env) (w : String)
    (h1 : env.dirExists = true) (h2 : env'.dirExists = true)
    (h3 : env.updateFile = some w) (h4 : env'.updateFile = some w)
    (h5 : cfg.cmr = cfg'.cmr) (h6 : cfg.ccid = cfg'.ccid) :
    (run cfg env).createdAt = (run cfg' env').createdAt ∧
    (run cfg env).createdAt = w ∧
    (run cfg env).url = (run cfg' env').url := by
  rw [run_createdAt, run_createdAt, run_url, run_url, h1, h2, h3, h4, h5, h6,
    resolveTimestamp_file, resolveTimestamp_file]
  exact ⟨rfl, rfl, rfl⟩

/-- C10 witness: with `mins` 20 versus 500 and different pre-query clocks
but identical watermark file contents, both runs query the same
`created_at` and the same URL. -/
theorem C10_lookback_no_influence_witness :
    (run cfg0 env0).createdAt = (run cfgAltMins envAltT0).createdAt ∧
    (run cfg0 env0).createdAt = "2020-09-02T16:00:00Z" ∧
    (run cfg0 env0).url = (run cfgAltMins envAltT0).url :=
  C10_lookback_no_influence cfg0 cfgAltMins env0 envAltT0 "2020-09-02T16:00:00Z"
    (by decide) (by decide) (by decide) (by decide) (by decide) (by decide)

end NRT
